import Mathlib

/-!
Shallow embedding of the authorization/token-lifecycle subsystem of the
googlecalendar tool service (src/main.py, src/wellaios/authenticate.py,
src/wellaios/disk.py, src/wellaios/google.py).

Modelling conventions:
  * Unix timestamps and the provider field expires_in are Int (Python int).
  * The token JSON dict is modelled by TokenData: the four keys the code
    reads or writes; a missing key is none.
  * The on-disk token folder is Store: a map from user id to the parsed
    record; a missing or unreadable file is none (disk.py treats both as
    absent).
  * Network calls to the provider token endpoint are an oracle argument
    (Option String -> Option TokenData for refresh, String -> Option TokenData
    for the code exchange); none models any exception raised by
    requests.post / raise_for_status (non-2xx or transport failure).
  * Functions that in Python mutate module state or the disk take that
    state as an argument and return the new state.  Where a claim speaks
    of provider-call counts, the embedding returns the number of provider
    round trips the call performed (the source has one requests.post per
    refresh / exchange, never in a loop).
-/

/-- The token JSON dict: the keys read or written by disk.py and google.py.
A missing key is `none`. -/
structure TokenData where
  access_token : Option String := none
  refresh_token : Option String := none
  expires_in : Option Int := none
  expires_at : Option Int := none
deriving DecidableEq

/-- The on-disk token folder, one JSON record per user id. -/
def Store : Type := String → Option TokenData

/-- Python truthiness of an optional string: `None` and the empty string are
falsy, everything else truthy. -/
def pyTruthy (o : Option String) : Bool :=
  match o with
  | none => false
  | some s => s ≠ ""

/-- disk.py save_user_google_tokens: sets expires_at to now + expires_in when
expires_in is present, else to the sentinel 0 (printing a warning), then
writes the record for user_id.  Returns the new store and whether the
warning was printed. -/
def save_user_google_tokens (store : Store) (now : Int) (user_id : String)
    (token_data : TokenData) : Store × Bool :=
  match token_data.expires_in with
  | some n =>
      let td := { token_data with expires_at := some (now + n) }
      (fun x => if x = user_id then some td else store x, false)
  | none =>
      let td := { token_data with expires_at := some 0 }
      (fun x => if x = user_id then some td else store x, true)

/-- disk.py get_user_google_credentials: loads the record (none when the file
is missing or unreadable), rejects records without a truthy access_token or
without expires_at, then returns (False, refresh_token) when
current_time >= expires_at - 60 and (True, access_token) otherwise. -/
def get_user_google_credentials (store : Store) (now : Int) (user_id : String) :
    Option (Bool × Option String) :=
  match store user_id with
  | none => none
  | some td =>
      match td.access_token, td.expires_at with
      | some a, some e =>
          if a = "" then none
          else if e - 60 ≤ now then some (false, td.refresh_token)
          else some (true, some a)
      | _, _ => none

/-- google.py refresh_google_access_token: one POST to the token endpoint
(the oracle).  On exception (oracle none) returns None and leaves the store
alone.  On a response, re-attaches the presented refresh_token, saves the
record, and returns the access_token of the response; a response without
access_token raises KeyError after the save, caught and turned into None,
which is `resp.access_token = none` here. -/
def refresh_google_access_token (oracle : Option String → Option TokenData)
    (store : Store) (now : Int) (user_id : String) (rt : Option String) :
    Store × Option String :=
  match oracle rt with
  | none => (store, none)
  | some resp =>
      let resp2 := { resp with refresh_token := rt }
      ((save_user_google_tokens store now user_id resp2).1, resp2.access_token)

/-- google.py get_user_token: load credentials; absent record yields None with
no provider call; a valid record yields the stored access token with no
provider call; otherwise one refresh round trip decides the result.  The
third component counts provider calls performed. -/
def get_user_token (oracle : Option String → Option TokenData)
    (store : Store) (now : Int) (user_id : String) :
    Store × Option String × Nat :=
  match get_user_google_credentials store now user_id with
  | none => (store, none, 0)
  | some (true, tok) => (store, tok, 0)
  | some (false, rt) =>
      let r := refresh_google_access_token oracle store now user_id rt
      (r.1, r.2, 1)

/-- authenticate.py temp_user_oauth_token: the in-memory per-user ticket map. -/
def Tickets : Type := String → Option String

/-- authenticate.py gen_user_auth_token: stores a freshly generated random
secret (os.urandom(32).hex(), passed in here as `rnd`) for the user and
returns it. -/
def gen_user_auth_token (m : Tickets) (user_id : String) (rnd : String) :
    Tickets × String :=
  (fun x => if x = user_id then some rnd else m x, rnd)

/-- authenticate.py match_user_auth_token: true when the user has a stored
ticket and it equals the presented token. -/
def match_user_auth_token (m : Tickets) (user_id : String) (token : String) :
    Bool :=
  match m user_id with
  | some s => s == token
  | none => false

/-- A ticket map built by replaying a chronological list of
(user_id, generated secret) issue events on the initially empty map. -/
def applyIssues (evs : List (String × String)) : Tickets :=
  evs.foldl (fun m e => (gen_user_auth_token m e.1 e.2).1) (fun _ => none)

/-- The secret most recently issued to a user in a chronological event list
(the last event for that user), written from the words of the spec. -/
def lastIssued : List (String × String) → String → Option String
  | [], _ => none
  | e :: t, u =>
      match lastIssued t u with
      | some s => some s
      | none => if u = e.1 then some e.2 else none

/-- google.py temp_google_oauth_states: state nonce to user id. -/
def States : Type := String → Option String

/-- google.py handle_google_callback.  Arguments: the code-exchange oracle
(none models an exception in exchange_code_for_tokens), the state map, the
store, the clock, and the three query parameters.  Returns the new state
map, the new store, the HTTP status of the response, and the number of
provider round trips performed.  dict.pop removes the state only when it is
present, so the map is returned unchanged on the error and missing-parameter
paths. -/
def handle_google_callback (exch : String → Option TokenData)
    (states : States) (store : Store) (now : Int)
    (code state error : Option String) : States × Store × Nat × Nat :=
  if pyTruthy error then (states, store, 400, 0)
  else if ¬ pyTruthy code ∨ ¬ pyTruthy state then (states, store, 400, 0)
  else
    let s := state.getD ""
    match states s with
    | none => (states, store, 400, 0)
    | some user_id =>
        let states2 : States := fun x => if x = s then none else states x
        match exch (code.getD "") with
        | none => (states2, store, 500, 1)
        | some token_data =>
            (states2, (save_user_google_tokens store now user_id token_data).1,
              200, 1)

/-- google.py start_google_auth: generates a random state nonce (passed in as
`rnd`), records state -> user_id, and redirects the browser to the consent
URL built from the state. -/
def start_google_auth (states : States) (user_id : String) (rnd : String) :
    States × String :=
  (fun x => if x = rnd then some user_id else states x, rnd)

/-- Python str.startswith, via the character lists of the two strings. -/
def pyStartsWith (s pre : String) : Bool :=
  pre.data.isPrefixOf s.data

/-- Python str.lower on latin-1-decoded text: ASCII A-Z and latin-1 À-Þ
(0xC0-0xDE, except the multiplication sign 0xD7) shift down by 32. -/
def pyLowerChar (c : Char) : Char :=
  let n := c.toNat
  if 65 ≤ n ∧ n ≤ 90 then Char.ofNat (n + 32)
  else if 192 ≤ n ∧ n ≤ 222 ∧ n ≠ 215 then Char.ofNat (n + 32)
  else c

/-- Python str.lower, characterwise. -/
def pyLower (s : String) : String :=
  ⟨s.data.map pyLowerChar⟩

/-- Python str whitespace within latin-1: space, TAB, LF, VT, FF, CR, the
file/group/record/unit separators 0x1C-0x1F, NEL 0x85 and NBSP 0xA0. -/
def pyIsSpace (c : Char) : Bool :=
  let n := c.toNat
  n == 32 || n == 9 || n == 10 || n == 11 || n == 12 || n == 13 ||
  n == 28 || n == 29 || n == 30 || n == 31 || n == 133 || n == 160

/-- Python s.strip().split(maxsplit=1): strip leading and trailing
whitespace, then split off the first whitespace-separated word; the
remainder keeps its internal whitespace.  Yields [], [word] or
[word, remainder]. -/
def pyStripSplit1 (s : String) : List String :=
  let l := ((s.data.dropWhile pyIsSpace).reverse.dropWhile pyIsSpace).reverse
  let w := l.takeWhile (fun c => !pyIsSpace c)
  let rest := (l.dropWhile (fun c => !pyIsSpace c)).dropWhile pyIsSpace
  if w.isEmpty then []
  else if rest.isEmpty then [⟨w⟩] else [⟨w⟩, ⟨rest⟩]

/-- authenticate.py lines 110-113: parse the Authorization header; the token
is extracted only from a two-part header whose first word lowercases to
"bearer". -/
def parseBearerHeader (ah : String) : Option String :=
  match pyStripSplit1 ah with
  | [p0, p1] => if pyLower p0 = "bearer" then some p1 else none
  | _ => none

/-- authenticate.py header dict construction: keys lowercased, later
occurrences of a key overriding earlier ones.  The latin-1 decode of the
raw header bytes is the identity on code points below 256, so headers are
modelled as the decoded string pairs. -/
def buildHeaderDict (headers : List (String × String)) :
    String → Option String :=
  headers.foldl
    (fun m kv => fun k => if k = pyLower kv.1 then some kv.2 else m k)
    (fun _ => none)

/-- authenticate.py lines 82-90: parse the query string by splitting on
ampersands; an item with an equals sign maps its key to the text after the
first equals sign, a nonempty item without one maps to the empty string, and
later items override earlier ones. -/
def parseQueryItem (item : String) : Option (String × String) :=
  match item.data.dropWhile (fun c => c != '=') with
  | [] => if item.data.isEmpty then none else some (item, "")
  | _ :: v => some (⟨item.data.takeWhile (fun c => c != '=')⟩, ⟨v⟩)

/-- Python str.split(sep) for a single separator character: the pieces
between separator occurrences, empty pieces included. -/
def splitChar (sep : Char) : List Char → List (List Char)
  | [] => [[]]
  | c :: t =>
      if c = sep then [] :: splitChar sep t
      else
        match splitChar sep t with
        | h :: r => (c :: h) :: r
        | [] => [[c]]

/-- The query-parameter dict of authenticate.py: empty for an empty query
string, else built item by item. -/
def pyParseQuery (qs : String) : String → Option String :=
  if qs = "" then fun _ => none
  else
    (((splitChar '&' qs.data).map String.mk).filterMap parseQueryItem).foldl
      (fun m kv => fun k => if k = kv.1 then some kv.2 else m k)
      (fun _ => none)

/-- The outcome of the middleware on one HTTP request: either the downstream
ASGI app is invoked unchanged, or a 401 plaintext response with the given
body is sent and the downstream app is never invoked. -/
inductive GateResult where
  | pass : GateResult
  | reject401 : String → GateResult
deriving DecidableEq

/-- authenticate.py AuthenticationMiddleware.__call__ on an HTTP scope:
callback paths pass through; /auth paths compare the token query parameter
against the ticket stored for the userid query parameter (a missing userid
reads as the empty string); every other path compares the parsed
Authorization header against the process-wide BEARER_TOKEN.  The common
rejection test of line 116 — target token absent or presented bearer
different — is applied in both authenticated branches. -/
def authenticationMiddleware (bearerTokenCfg : Option String)
    (tickets : Tickets) (path : String) (headers : List (String × String))
    (queryString : String) : GateResult :=
  if pyStartsWith path "/auth/google/callback" then .pass
  else if pyStartsWith path "/auth" then
    let qp := pyParseQuery queryString
    let target := tickets ((qp "userid").getD "")
    let bearer := qp "token"
    if target = none ∨ bearer ≠ target then .reject401 "Unauthorized" else .pass
  else
    match buildHeaderDict headers "authorization" with
    | none => .reject401 "Missing Authorization Header"
    | some ah =>
        let bearer := parseBearerHeader ah
        if bearerTokenCfg = none ∨ bearer ≠ bearerTokenCfg then
          .reject401 "Unauthorized"
        else .pass

/-- The environment-derived module configuration: authenticate.py line 7 and
google.py lines 11-19.  Every value is read with os.environ.get, which
returns None for a missing variable and never raises; the redirect URI is
built with an f-string, which renders a missing SERVER_DOMAIN as the literal
text "None". -/
structure AppConfig where
  bearer_token : Option String
  server_domain : Option String
  google_client_id : Option String
  google_client_secret : Option String
  google_redirect_uri : String
deriving DecidableEq

/-- Python str(x) for an optional string, as an f-string renders it. -/
def pyFString (o : Option String) : String :=
  match o with
  | none => "None"
  | some s => s

/-- Module-level configuration loading, exactly as the imports execute it:
no validation of any value. -/
def loadConfig (env : String → Option String) : AppConfig :=
  { bearer_token := env "AUTH_TOKEN"
    server_domain := env "SERVER_DOMAIN"
    google_client_id := env "GOOGLE_CLIENT_ID"
    google_client_secret := env "GOOGLE_CLIENT_SECRET"
    google_redirect_uri := pyFString (env "SERVER_DOMAIN") ++ "/auth/google/callback" }

/-- The startup sequence of main.py: load_dotenv, module imports (which run
loadConfig), middleware construction and uvicorn.run.  No step inspects the
configuration, so startup always reaches the running server; `none` would
model a startup failure, which the source can never produce. -/
def runServer (env : String → Option String) : Option AppConfig :=
  some (loadConfig env)

/-! Concrete fixtures used by the witness and counterexample theorems. -/

/-- A stored credential record: access token tok0, refresh token r0,
expiring at time 1000. -/
def wTd : TokenData :=
  { access_token := some "tok0", refresh_token := some "r0",
    expires_in := none, expires_at := some 1000 }

/-- A store holding exactly the record of user alice. -/
def wStore : Store := fun u => if u = "alice" then some wTd else none

/-- A provider whose token endpoint always fails. -/
def wOracle : Option String → Option TokenData := fun _ => none

/-- A provider refresh response: new access token tok1, no refresh token,
expires in 3600 seconds. -/
def wResp : TokenData := { access_token := some "tok1", expires_in := some 3600 }

/-- A provider whose token endpoint always returns wResp. -/
def wOracleOk : Option String → Option TokenData := fun _ => some wResp

/-- A ticket map holding one ticket, for user u1. -/
def wTickets : Tickets := fun u => if u = "u1" then some "tickB" else none

/-- A ticket map holding a ticket for the empty-string user id. -/
def emptyUserIdTickets : Tickets := fun u => if u = "" then some "tickA" else none

/-- A code-exchange oracle that accepts exactly the code code1. -/
def wExch : String → Option TokenData :=
  fun c => if c = "code1" then some wResp else none

/-- A state map holding the pending nonce nonce1 for user alice. -/
def wStates : States := fun s => if s = "nonce1" then some "alice" else none

/-! Theorems. -/

/-- C1: for every user whose stored record is well formed and satisfies
now < expires_at - 60 at call time, get_user_token returns the stored access
token unchanged, performs zero provider round trips and leaves the store
untouched; and the record is judged valid (credentials lookup yields the
True branch) exactly when now < expires_at - 60. -/
theorem get_user_token_valid (oracle : Option String → Option TokenData)
    (store : Store) (now : Int) (user_id a : String) (td : TokenData) (e : Int)
    (hrec : store user_id = some td) (ha : td.access_token = some a)
    (hne : a ≠ "") (he : td.expires_at = some e) :
    (now < e - 60 → get_user_token oracle store now user_id = (store, some a, 0)) ∧
    (get_user_google_credentials store now user_id = some (true, some a) ↔
      now < e - 60) := by
  have hg : get_user_google_credentials store now user_id =
      if e - 60 ≤ now then some (false, td.refresh_token) else some (true, some a) := by
    simp [get_user_google_credentials, hrec, ha, he, hne]
  constructor
  · intro hlt
    have hn : ¬ e - 60 ≤ now := not_le.mpr hlt
    unfold get_user_token
    rw [hg]
    simp [hn]
  · rw [hg]
    by_cases hle : e - 60 ≤ now
    · simp [hle, not_lt.mpr hle]
    · simp [hle, lt_of_not_le hle]

/-- Witness for C1: at time 0 the record of alice, which expires at 1000, is
returned as is. -/
theorem get_user_token_valid_witness :
    get_user_token wOracle wStore 0 "alice" = (wStore, some "tok0", 0) :=
  (get_user_token_valid wOracle wStore 0 "alice" "tok0" wTd 1000
    (by decide) (by decide) (by decide) (by decide)).1 (by decide)

/-- C2: with no stored record get_user_token returns None with zero provider
calls; with a stale well-formed record (now at or past expires_at - 60,
which includes the sentinel expires_at = 0) it performs exactly one refresh
round trip, and on a response carrying an access token it persists the
re-assembled record and returns that token, while on a failed refresh it
returns None with the store untouched and no retry. -/
theorem get_user_token_refresh (oracle : Option String → Option TokenData)
    (store : Store) (now : Int) (user_id : String) :
    (store user_id = none → get_user_token oracle store now user_id = (store, none, 0)) ∧
    (∀ td a e, store user_id = some td → td.access_token = some a → a ≠ "" →
      td.expires_at = some e → e - 60 ≤ now →
      (∀ resp a2, oracle td.refresh_token = some resp → resp.access_token = some a2 →
        get_user_token oracle store now user_id =
          ((save_user_google_tokens store now user_id
              { resp with refresh_token := td.refresh_token }).1, some a2, 1)) ∧
      (oracle td.refresh_token = none →
        get_user_token oracle store now user_id = (store, none, 1))) := by
  constructor
  · intro hnone
    simp [get_user_token, get_user_google_credentials, hnone]
  · intro td a e hrec ha hne he hle
    have hg : get_user_google_credentials store now user_id =
        some (false, td.refresh_token) := by
      simp [get_user_google_credentials, hrec, ha, he, hne, hle]
    constructor
    · intro resp a2 hor ha2
      unfold get_user_token
      rw [hg]
      simp [refresh_google_access_token, hor, ha2]
    · intro hor
      unfold get_user_token
      rw [hg]
      simp [refresh_google_access_token, hor]

/-- Witness for C2: at time 1000 the record of alice is stale; a successful
refresh persists and returns tok1, a failing refresh returns None, and the
unknown user bob gets None with no provider call. -/
theorem get_user_token_refresh_witness :
    get_user_token wOracleOk wStore 1000 "alice" =
      ((save_user_google_tokens wStore 1000 "alice"
          { wResp with refresh_token := wTd.refresh_token }).1, some "tok1", 1) ∧
    get_user_token wOracle wStore 1000 "alice" = (wStore, none, 1) ∧
    get_user_token wOracleOk wStore 1000 "bob" = (wStore, none, 0) :=
  ⟨((get_user_token_refresh wOracleOk wStore 1000 "alice").2 wTd "tok0" 1000
      (by decide) (by decide) (by decide) (by decide) (by decide)).1 wResp "tok1"
      (by decide) (by decide),
   ((get_user_token_refresh wOracle wStore 1000 "alice").2 wTd "tok0" 1000
      (by decide) (by decide) (by decide) (by decide) (by decide)).2 (by decide),
   (get_user_token_refresh wOracleOk wStore 1000 "bob").1 (by decide)⟩

/-- Counterexample to C3 as stated: a request to /auth with no userid query
parameter is not rejected when a ticket happens to be stored for the
empty-string user id and the presented token matches it - the middleware
reads a missing userid as the empty string rather than rejecting. -/
theorem gate_missing_userid_counterexample :
    authenticationMiddleware (some "svc") emptyUserIdTickets "/auth" [] "token=tickA" =
      GateResult.pass := by decide

/-- C3 (amended): on a path in the /auth branch and outside the callback
branch, the gate reads the userid query parameter (missing userid is read as
the empty string), looks the expected token up dynamically in the ticket
map, and passes the request through exactly when a ticket is stored for
that user id and the token query parameter equals it, rejecting with 401
otherwise; any callback path passes through untouched. -/
theorem gate_ticket_branch (bearerTokenCfg : Option String) (tickets : Tickets)
    (path : String) (headers : List (String × String)) (qs : String)
    (h1 : pyStartsWith path "/auth" = true)
    (h2 : pyStartsWith path "/auth/google/callback" = false) :
    (authenticationMiddleware bearerTokenCfg tickets path headers qs =
      match tickets ((pyParseQuery qs "userid").getD "") with
      | none => GateResult.reject401 "Unauthorized"
      | some t =>
          if pyParseQuery qs "token" = some t then GateResult.pass
          else GateResult.reject401 "Unauthorized") ∧
    (∀ p2 headers2 qs2, pyStartsWith p2 "/auth/google/callback" = true →
      authenticationMiddleware bearerTokenCfg tickets p2 headers2 qs2 =
        GateResult.pass) := by
  constructor
  · unfold authenticationMiddleware
    rw [h1, h2]
    cases ht : tickets ((pyParseQuery qs "userid").getD "") with
    | none => simp [ht]
    | some t =>
        by_cases hb : pyParseQuery qs "token" = some t
        · simp [ht, hb]
        · simp [ht, hb]
  · intro p2 headers2 qs2 hcb
    unfold authenticationMiddleware
    rw [hcb]
    simp

/-- Witness for C3 (amended): a matching ticket for u1 passes, and the
callback path passes untouched. -/
theorem gate_ticket_branch_witness :
    (authenticationMiddleware (some "svc") wTickets "/auth" []
        "userid=u1&token=tickB" =
      match wTickets ((pyParseQuery "userid=u1&token=tickB" "userid").getD "") with
      | none => GateResult.reject401 "Unauthorized"
      | some t =>
          if pyParseQuery "userid=u1&token=tickB" "token" = some t then
            GateResult.pass
          else GateResult.reject401 "Unauthorized") ∧
    authenticationMiddleware (some "svc") wTickets "/auth/google/callback" [] "" =
      GateResult.pass :=
  ⟨(gate_ticket_branch (some "svc") wTickets "/auth" [] "userid=u1&token=tickB"
      (by decide) (by decide)).1,
   (gate_ticket_branch (some "svc") wTickets "/auth" [] "" (by decide)
      (by decide)).2 "/auth/google/callback" [] "" (by decide)⟩

/-- C4: on every path outside the /auth and callback branches the gate
rejects with 401 when the Authorization header is absent, when it does not
parse as a two-part bearer header, or when the parsed token differs from the
service secret, and passes the request through when the parsed token equals
the service secret. -/
theorem gate_service_secret (secret : String) (tickets : Tickets) (path : String)
    (headers : List (String × String)) (qs : String)
    (h1 : pyStartsWith path "/auth" = false)
    (h2 : pyStartsWith path "/auth/google/callback" = false) :
    (buildHeaderDict headers "authorization" = none →
      authenticationMiddleware (some secret) tickets path headers qs =
        GateResult.reject401 "Missing Authorization Header") ∧
    (∀ ah, buildHeaderDict headers "authorization" = some ah →
      (parseBearerHeader ah = none →
        authenticationMiddleware (some secret) tickets path headers qs =
          GateResult.reject401 "Unauthorized") ∧
      (∀ b, parseBearerHeader ah = some b → b ≠ secret →
        authenticationMiddleware (some secret) tickets path headers qs =
          GateResult.reject401 "Unauthorized") ∧
      (parseBearerHeader ah = some secret →
        authenticationMiddleware (some secret) tickets path headers qs =
          GateResult.pass)) := by
  constructor
  · intro hmiss
    unfold authenticationMiddleware
    rw [h1, h2, hmiss]
    rfl
  · intro ah hah
    refine ⟨?_, ?_, ?_⟩
    · intro hpb
      unfold authenticationMiddleware
      rw [h1, h2, hah]
      simp [hpb]
    · intro b hpb hne
      unfold authenticationMiddleware
      rw [h1, h2, hah]
      simp [hpb, hne]
    · intro hpb
      unfold authenticationMiddleware
      rw [h1, h2, hah]
      simp [hpb]

/-- Witness for C4: missing header, malformed header, wrong token and the
correct service secret, on a protected path. -/
theorem gate_service_secret_witness :
    authenticationMiddleware (some "svc") wTickets "/mcp" [] "" =
      GateResult.reject401 "Missing Authorization Header" ∧
    authenticationMiddleware (some "svc") wTickets "/mcp"
      [("authorization", "Token svc")] "" = GateResult.reject401 "Unauthorized" ∧
    authenticationMiddleware (some "svc") wTickets "/mcp"
      [("authorization", "Bearer wrong")] "" = GateResult.reject401 "Unauthorized" ∧
    authenticationMiddleware (some "svc") wTickets "/mcp"
      [("Authorization", "Bearer svc")] "" = GateResult.pass :=
  ⟨(gate_service_secret "svc" wTickets "/mcp" [] "" (by decide) (by decide)).1
      (by decide),
   ((gate_service_secret "svc" wTickets "/mcp" [("authorization", "Token svc")] ""
      (by decide) (by decide)).2 "Token svc" (by decide)).1 (by decide),
   (((gate_service_secret "svc" wTickets "/mcp" [("authorization", "Bearer wrong")]
      "" (by decide) (by decide)).2 "Bearer wrong" (by decide)).2.1 "wrong"
      (by decide) (by decide)),
   ((gate_service_secret "svc" wTickets "/mcp" [("Authorization", "Bearer svc")] ""
      (by decide) (by decide)).2 "Bearer svc" (by decide)).2.2 (by decide)⟩

/-- Replaying issue events on any starting map: validation succeeds exactly
when the presented secret is the most recently issued one in the replayed
events, or, when the events never touch the user, when the starting map
already validates it. -/
theorem match_applyIssues_aux (evs : List (String × String)) :
    ∀ (m : Tickets) (u s : String),
      match_user_auth_token
        (evs.foldl (fun m e => (gen_user_auth_token m e.1 e.2).1) m) u s = true ↔
        (lastIssued evs u = some s ∨
          (lastIssued evs u = none ∧ match_user_auth_token m u s = true)) := by
  induction evs with
  | nil =>
      intro m u s
      simp [lastIssued]
  | cons e t ih =>
      intro m u s
      rw [List.foldl_cons, ih]
      cases h : lastIssued t u with
      | some s1 => simp [lastIssued, h]
      | none =>
          by_cases hu : u = e.1
          · subst hu
            simp [lastIssued, h, gen_user_auth_token, match_user_auth_token]
          · simp [lastIssued, h, hu, gen_user_auth_token, match_user_auth_token]

/-- C5: over any history of issue events, validation succeeds exactly for
the most recently issued secret of that user; in particular issue followed
by validate with the returned secret succeeds, any other secret fails,
validation for other users is unaffected, and after a re-issue the
previously issued secret fails. -/
theorem ticket_validate_iff :
    (∀ evs u s, match_user_auth_token (applyIssues evs) u s = true ↔
        lastIssued evs u = some s) ∧
    (∀ m u rnd, match_user_auth_token (gen_user_auth_token m u rnd).1 u rnd = true) ∧
    (∀ m u rnd s, s ≠ rnd →
        match_user_auth_token (gen_user_auth_token m u rnd).1 u s = false) ∧
    (∀ m u u2 rnd s, u2 ≠ u →
        match_user_auth_token (gen_user_auth_token m u rnd).1 u2 s =
          match_user_auth_token m u2 s) ∧
    (∀ m u r1 r2, r1 ≠ r2 →
        match_user_auth_token
          (gen_user_auth_token (gen_user_auth_token m u r1).1 u r2).1 u r1 =
          false) := by
  refine ⟨?_, ?_, ?_, ?_, ?_⟩
  · intro evs u s
    rw [applyIssues, match_applyIssues_aux]
    simp [match_user_auth_token]
  · intro m u rnd
    simp [gen_user_auth_token, match_user_auth_token]
  · intro m u rnd s hs
    simp [gen_user_auth_token, match_user_auth_token]
    exact fun h => absurd h.symm hs
  · intro m u u2 rnd s hu
    simp [gen_user_auth_token, match_user_auth_token, hu]
  · intro m u r1 r2 hr
    simp [gen_user_auth_token, match_user_auth_token]
    exact fun h => absurd h hr.symm

/-- Witness for C5: a two-issue history for u1, a fresh issue, a wrong
secret, an untouched other user, and a superseded secret. -/
theorem ticket_validate_iff_witness :
    match_user_auth_token (applyIssues [("u1", "sA"), ("u1", "sB")]) "u1" "sB" = true ∧
    match_user_auth_token (gen_user_auth_token (fun _ => none) "u1" "sA").1
      "u1" "sA" = true ∧
    match_user_auth_token (gen_user_auth_token (fun _ => none) "u1" "sA").1
      "u1" "sB" = false ∧
    match_user_auth_token (gen_user_auth_token (fun _ => none) "u1" "sA").1
      "u2" "sA" = match_user_auth_token (fun _ => none) "u2" "sA" ∧
    match_user_auth_token
      (gen_user_auth_token (gen_user_auth_token (fun _ => none) "u1" "sA").1
        "u1" "sB").1 "u1" "sA" = false :=
  ⟨(ticket_validate_iff.1 [("u1", "sA"), ("u1", "sB")] "u1" "sB").mpr (by decide),
   ticket_validate_iff.2.1 (fun _ => none) "u1" "sA",
   ticket_validate_iff.2.2.1 (fun _ => none) "u1" "sA" "sB" (by decide),
   ticket_validate_iff.2.2.2.1 (fun _ => none) "u1" "u2" "sA" "sA" (by decide),
   ticket_validate_iff.2.2.2.2 (fun _ => none) "u1" "sA" "sB" (by decide)⟩

/-- A callback whose state nonce is not in the map is rejected with 400,
leaving both maps untouched and performing no code exchange. -/
theorem callback_absent_state (exch : String → Option TokenData)
    (states : States) (store : Store) (now : Int) (c s : String)
    (hc : c ≠ "") (hs : s ≠ "") (h0 : states s = none) :
    handle_google_callback exch states store now (some c) (some s) none =
      (states, store, 400, 0) := by
  unfold handle_google_callback
  simp [pyTruthy, hc, hs, h0]

/-- C6: a callback that validates a pending state removes that state from
the map, and every later callback presenting the same state, whatever its
code and against whatever store, is rejected with 400, performs no code
exchange, and writes nothing. -/
theorem oauth_state_single_use (exch : String → Option TokenData)
    (states : States) (store : Store) (now : Int) (c s user_id : String)
    (hc : c ≠ "") (hs : s ≠ "") (hst : states s = some user_id) :
    ((handle_google_callback exch states store now (some c) (some s) none).1 s =
      none) ∧
    (∀ store2 now2 c2, c2 ≠ "" →
      handle_google_callback exch
        (handle_google_callback exch states store now (some c) (some s) none).1
        store2 now2 (some c2) (some s) none =
        ((handle_google_callback exch states store now (some c) (some s) none).1,
          store2, 400, 0)) := by
  have hmap : (handle_google_callback exch states store now (some c) (some s) none).1 =
      fun x => if x = s then none else states x := by
    unfold handle_google_callback
    cases hex : exch c <;> simp [pyTruthy, hc, hs, hst, hex]
  have h0 : (handle_google_callback exch states store now (some c) (some s) none).1 s =
      none := by
    rw [hmap]
    simp
  exact ⟨h0, fun store2 now2 c2 hc2 =>
    callback_absent_state exch _ store2 now2 c2 s hc2 hs h0⟩

/-- Witness for C6: the consumed nonce nonce1 is gone and the replayed
callback with the still-valid code code1 is rejected. -/
theorem oauth_state_single_use_witness :
    ((handle_google_callback wExch wStates wStore 0 (some "code1") (some "nonce1")
        none).1 "nonce1" = none) ∧
    handle_google_callback wExch
      (handle_google_callback wExch wStates wStore 0 (some "code1") (some "nonce1")
        none).1 wStore 5 (some "code1") (some "nonce1") none =
      ((handle_google_callback wExch wStates wStore 0 (some "code1") (some "nonce1")
          none).1, wStore, 400, 0) :=
  ⟨(oauth_state_single_use wExch wStates wStore 0 "code1" "nonce1" "alice"
      (by decide) (by decide) (by decide)).1,
   (oauth_state_single_use wExch wStates wStore 0 "code1" "nonce1" "alice"
      (by decide) (by decide) (by decide)).2 wStore 5 "code1" (by decide)⟩

/-- C7: saving a record and reading it back for the same user yields the
saved access and refresh tokens unchanged, with expires_at equal to the save
time plus expires_in when the provider supplied it and to the sentinel 0
otherwise, the warning being emitted exactly in the latter case. -/
theorem save_load_round_trip (store : Store) (now : Int) (user_id : String)
    (td : TokenData) :
    ∃ td2, (save_user_google_tokens store now user_id td).1 user_id = some td2 ∧
      td2.access_token = td.access_token ∧
      td2.refresh_token = td.refresh_token ∧
      td2.expires_at = some (match td.expires_in with
        | some n => now + n
        | none => 0) ∧
      (save_user_google_tokens store now user_id td).2 = td.expires_in.isNone := by
  cases h : td.expires_in with
  | some n =>
      refine ⟨{ td with expires_at := some (now + n) }, ?_, rfl, rfl, ?_, ?_⟩
      · simp [save_user_google_tokens, h]
      · simp [h]
      · simp [save_user_google_tokens, h]
  | none =>
      refine ⟨{ td with expires_at := some 0 }, ?_, rfl, rfl, ?_, ?_⟩
      · simp [save_user_google_tokens, h]
      · simp [h]
      · simp [save_user_google_tokens, h]

/-- C8: when the provider refresh response carries no refresh token, the
record persisted by a successful refresh keeps the refresh token presented
to the call, while its access token and expiry come from the fresh
response. -/
theorem refresh_keeps_prior_refresh_token (oracle : Option String → Option TokenData)
    (store : Store) (now : Int) (user_id : String) (rt : Option String)
    (resp : TokenData) (h1 : oracle rt = some resp)
    (h2 : resp.refresh_token = none) :
    ∃ td2, (refresh_google_access_token oracle store now user_id rt).1 user_id =
        some td2 ∧
      td2.refresh_token = rt ∧
      td2.access_token = resp.access_token ∧
      td2.expires_in = resp.expires_in ∧
      td2.expires_at = some (match resp.expires_in with
        | some n => now + n
        | none => 0) := by
  cases h : resp.expires_in with
  | some n =>
      refine ⟨{ resp with refresh_token := rt, expires_at := some (now + n) },
        ?_, rfl, rfl, h, rfl⟩
      simp [refresh_google_access_token, h1, save_user_google_tokens, h]
  | none =>
      refine ⟨{ resp with refresh_token := rt, expires_at := some 0 },
        ?_, rfl, rfl, h, rfl⟩
      simp [refresh_google_access_token, h1, save_user_google_tokens, h]

/-- Witness for C8: refreshing the record of alice with presented refresh
token r0 persists a record still carrying r0. -/
theorem refresh_keeps_prior_refresh_token_witness :
    ∃ td2, (refresh_google_access_token wOracleOk wStore 0 "alice"
        (some "r0")).1 "alice" = some td2 ∧
      td2.refresh_token = some "r0" ∧
      td2.access_token = wResp.access_token ∧
      td2.expires_in = wResp.expires_in ∧
      td2.expires_at = some (match wResp.expires_in with
        | some n => (0 : Int) + n
        | none => 0) :=
  refresh_keeps_prior_refresh_token wOracleOk wStore 0 "alice" (some "r0") wResp
    (by decide) (by decide)

/-- C9: the startup of main.py never fails fast on missing configuration:
with every environment variable unset the server still starts, carrying a
None service secret and the literal text None inside the redirect URI, and
the missing secret then surfaces at request time as a 401 on every
protected request. -/
theorem startup_never_fails_fast :
    runServer (fun _ => none) =
      some { bearer_token := none, server_domain := none,
             google_client_id := none, google_client_secret := none,
             google_redirect_uri := "None/auth/google/callback" } ∧
    (loadConfig (fun _ => none)).bearer_token = none ∧
    authenticationMiddleware none (fun _ => none) "/mcp"
      [("authorization", "Bearer anything")] "" =
      GateResult.reject401 "Unauthorized" :=
  ⟨rfl, rfl, by decide⟩

/-- C10: a callback carrying a nonempty error parameter is rejected with 400
immediately, leaving the state map and the store untouched and performing no
exchange; a pending state nonce therefore survives such an error callback,
and a later error-free callback presenting it still validates and reaches
the code exchange. -/
theorem callback_error_preserves_state (exch : String → Option TokenData)
    (states : States) (store : Store) (now : Int) (code st : Option String)
    (err : String) (herr : err ≠ "") :
    (handle_google_callback exch states store now code st (some err) =
      (states, store, 400, 0)) ∧
    (∀ c s user_id resp, c ≠ "" → s ≠ "" → states s = some user_id →
      exch c = some resp →
      handle_google_callback exch states store now (some c) (some s) none =
        ((fun x => if x = s then none else states x),
          (save_user_google_tokens store now user_id resp).1, 200, 1)) := by
  constructor
  · unfold handle_google_callback
    simp [pyTruthy, herr]
  · intro c s user_id resp hc hs hst hex
    unfold handle_google_callback
    simp only [pyTruthy, Option.getD]
    simp [hc, hs, hst, hex]

/-- Witness for C10: an access-denied callback changes nothing, and the
pending nonce nonce1 still validates afterwards and reaches the exchange. -/
theorem callback_error_preserves_state_witness :
    handle_google_callback wExch wStates wStore 0 (some "code1") (some "nonce1")
      (some "denied") = (wStates, wStore, 400, 0) ∧
    handle_google_callback wExch wStates wStore 0 (some "code1") (some "nonce1")
      none =
      ((fun x => if x = "nonce1" then none else wStates x),
        (save_user_google_tokens wStore 0 "alice" wResp).1, 200, 1) :=
  ⟨(callback_error_preserves_state wExch wStates wStore 0 (some "code1")
      (some "nonce1") "denied" (by decide)).1,
   (callback_error_preserves_state wExch wStates wStore 0 (some "code1")
      (some "nonce1") "denied" (by decide)).2 "code1" "nonce1" "alice" wResp
      (by decide) (by decide) (by decide) (by decide)⟩
